import Mathlib

/-
Verification development for the warpomodoro starfield focus timer
(src/app/page.tsx). The code is shallowly embedded over ℚ: JavaScript
numbers become rationals, wall-clock timestamps are ℚ milliseconds, and
the mutable refs of the component become fields of an explicit `Session`
record threaded through the transition functions.
-/

namespace Warpomodoro

/-! ## CONFIG constants (page.tsx lines 6-28) -/

def WORK_DURATION : ℚ := 25 * 60 * 1000

def BREAK_DURATION : ℚ := 5 * 60 * 1000

def NUM_STARS : ℕ := 600

def IDLE_SPEED : ℚ := 0.2

def STAR_SPEED_MIN : ℚ := 0.05

def STAR_SPEED_BASE : ℚ := 1.0

def STAR_SPEED_MAX : ℚ := 10.5

def STAR_RESPAWN_DISTANCE : ℚ := 650

def ACCELERATION_TIME : ℚ := 5 * 60 * 1000

def EXIT_ANIMATION_TIME : ℚ := 1200

def TRAIL_LENGTH_BASE : ℚ := 400

def TRAIL_LENGTH_MULTIPLIER : ℚ := 300

/-! ## Timer state (page.tsx line 76)

`type TimerState = "idle" | "working" | "paused" | "workComplete" | "break" | "breakComplete"` -/

inductive TimerState where
  | idle
  | working
  | paused
  | workComplete
  | breakState
  | breakComplete
deriving DecidableEq, Repr

/-! ## Session state

The mutable component state relevant to the timer: `state` (useState),
`startTimeRef`, `workElapsedRef`, `completedSessions` (useState),
`breakStartSpeedRef` (page.tsx lines 83-94). -/

structure Session where
  state : TimerState
  startTime : ℚ
  workElapsed : ℚ
  completedSessions : ℕ
  breakStartSpeed : ℚ
deriving DecidableEq, Repr

/-- `totalElapsed` as computed in the working branch of `animate`
(page.tsx line 198) and in `getCurrentTime` (line 705):
banked work time plus live elapsed since the phase started. -/
def totalElapsed (s : Session) (now : ℚ) : ℚ :=
  s.workElapsed + (now - s.startTime)

/-! ## The speed the `takeBreak` handler stores in `breakStartSpeedRef`
(page.tsx lines 649-666). The ref is written but never read by the
renderer; it is embedded for fidelity of the `takeBreak` transition. -/

def takeBreakSpeed (elapsed : ℚ) : ℚ :=
  let rampUpTime : ℚ := 5000
  if elapsed < rampUpTime then
    let rampProgress := elapsed / rampUpTime
    let easedRamp := rampProgress * rampProgress * (3 - 2 * rampProgress)
    IDLE_SPEED + (STAR_SPEED_BASE - IDLE_SPEED) * easedRamp
  else
    let remainingProgress := (elapsed - rampUpTime) / (WORK_DURATION - rampUpTime)
    let easedProgress := min remainingProgress 1
    let aggressiveProgress := easedProgress * easedProgress * easedProgress
    STAR_SPEED_BASE + (STAR_SPEED_MAX - STAR_SPEED_BASE) * aggressiveProgress

/-! ## User actions

The action surface exposed to the user. Guards:
* `takeBreak` and `endSession` guard internally on `state === "working"`
  (page.tsx lines 644, 680);
* `startWork`, `startBreak`, `returnToIdle` are only dispatched by
  `handleButtonClick` from `idle`, `workComplete`, `breakComplete`
  respectively (lines 785-797);
* `resumeWork` is bound only to the button rendered when
  `state === "break"` (line 1135), so it can only fire in that state. -/

inductive Action where
  | startWork
  | takeBreak
  | endSession
  | resumeWork
  | startBreak
  | returnToIdle
deriving DecidableEq, Repr

/-- Which states define which user action, per the guards listed above. -/
def definesAction (st : TimerState) (a : Action) : Bool :=
  match a with
  | .startWork => st = .idle
  | .takeBreak => st = .working
  | .endSession => st = .working
  | .resumeWork => st = .breakState
  | .startBreak => st = .workComplete
  | .returnToIdle => st = .breakComplete

/-- Apply a user action at wall-clock time `now`, mirroring the handlers
in page.tsx (startWork 732-741, takeBreak 643-676, endSession 679-691,
resumeWork 744-751, startBreak 754-761, returnToIdle 764-770). An
action invoked from a state that does not define it leaves the session
untouched. -/
def applyAction (a : Action) (s : Session) (now : ℚ) : Session :=
  match a with
  | .startWork =>
      if s.state = .idle then
        { s with state := .working, startTime := now, workElapsed := 0 }
      else s
  | .takeBreak =>
      if s.state = .working then
        { s with workElapsed := now - s.startTime,
                 breakStartSpeed := takeBreakSpeed (now - s.startTime),
                 state := .breakState,
                 startTime := now }
      else s
  | .endSession =>
      if s.state = .working then
        { s with state := .idle, workElapsed := 0 }
      else s
  | .resumeWork =>
      if s.state = .breakState then
        { s with state := .working, startTime := now }
      else s
  | .startBreak =>
      if s.state = .workComplete then
        { s with state := .breakState, startTime := now, breakStartSpeed := 0 }
      else s
  | .returnToIdle =>
      if s.state = .breakComplete then
        { s with state := .idle, workElapsed := 0 }
      else s

/-! ## Clock-driven transitions inside `animate`

Each frame, the working branch checks `totalElapsed >= WORK_DURATION`
(page.tsx lines 212-226): it moves to `workComplete`, increments the
completed-session counter by one and zeroes `workElapsedRef`. The break
branch checks `elapsed >= BREAK_DURATION` (lines 251-253) and moves to
`breakComplete`. No other state reacts to the clock. -/

def tick (s : Session) (now : ℚ) : Session :=
  if s.state = .working then
    if totalElapsed s now ≥ WORK_DURATION then
      { s with state := .workComplete,
               completedSessions := s.completedSessions + 1,
               workElapsed := 0 }
    else s
  else if s.state = .breakState then
    if now - s.startTime ≥ BREAK_DURATION then
      { s with state := .breakComplete }
    else s
  else s

/-! ## Speed model (page.tsx lines 190-256)

`speedAndExit st elapsed workElapsed` returns the pair
`(speed, isExitingWarp)` computed at the top of each `animate` frame,
where `elapsed = now - startTimeRef.current` and `workElapsed` is
`workElapsedRef.current`. The state-transition side effects of the same
code are modelled separately by `tick`. -/

def speedAndExit (st : TimerState) (elapsed workElapsed : ℚ) : ℚ × Bool :=
  match st with
  | .idle => (IDLE_SPEED, false)
  | .working =>
    let totalElapsed := workElapsed + elapsed
    let accelerationProgress := min (totalElapsed / ACCELERATION_TIME) 1
    let easedProgress := accelerationProgress * accelerationProgress * (3 - 2 * accelerationProgress)
    let dramaticProgress := easedProgress * easedProgress
    (IDLE_SPEED + (STAR_SPEED_MAX - IDLE_SPEED) * dramaticProgress, false)
  | .workComplete => (0.2, false)
  | .breakState =>
    let exitProgress := min (elapsed / EXIT_ANIMATION_TIME) 1
    if exitProgress < 1 then
      let easedExit := 1 - (1 - exitProgress) ^ 3
      let totalElapsed := workElapsed
      let accelerationProgress := min (totalElapsed / ACCELERATION_TIME) 1
      let easedProgress := accelerationProgress * accelerationProgress * (3 - 2 * accelerationProgress)
      let dramaticProgress := easedProgress * easedProgress
      let startingSpeed := IDLE_SPEED + (STAR_SPEED_MAX - IDLE_SPEED) * dramaticProgress
      (startingSpeed * (1 - easedExit * 0.98), true)
    else
      (0.05, false)
  | .breakComplete => (0.05, false)
  -- `paused` matches none of the if-branches at page.tsx lines 193-256,
  -- so the initial `speed = CONFIG.STAR_SPEED_MIN` is kept.
  | .paused => (STAR_SPEED_MIN, false)

/-- The working-state speed as a function of `totalElapsed`
(page.tsx lines 198-209, also re-evaluated at the frozen
`workElapsedRef` in the break branch, lines 240-244). -/
def workingSpeed (totalElapsed : ℚ) : ℚ :=
  let accelerationProgress := min (totalElapsed / ACCELERATION_TIME) 1
  let easedProgress := accelerationProgress * accelerationProgress * (3 - 2 * accelerationProgress)
  let dramaticProgress := easedProgress * easedProgress
  IDLE_SPEED + (STAR_SPEED_MAX - IDLE_SPEED) * dramaticProgress

/-- `smoothstep`, written from the spec (section 4.1): t^2 (3 - 2 t). -/
def smoothstep (t : ℚ) : ℚ := t * t * (3 - 2 * t)

/-- `cubicEaseOut`, written from the spec (section 4.1): 1 - (1-t)^3. -/
def cubicEaseOut (t : ℚ) : ℚ := 1 - (1 - t) ^ 3

/-! ## Timer display (page.tsx lines 694-715) -/

/-- Zero-pad a number to two digits, as `padStart(2, "0")` does for the
non-negative integers produced by `formatTime`. -/
def pad2 (n : ℕ) : String :=
  if n < 10 then "0" ++ toString n else toString n

/-- `formatTime` (page.tsx lines 694-699). Both call sites clamp the
argument at 0 with `Math.max(..., 0)`, so `Math.floor` is modelled with
the floor into ℤ followed by `toNat` (the identity on these inputs). -/
def formatTime (milliseconds : ℚ) : String :=
  let totalSeconds : ℕ := (Int.floor (milliseconds / 1000)).toNat
  let minutes := totalSeconds / 60
  let seconds := totalSeconds % 60
  pad2 minutes ++ ":" ++ pad2 seconds

/-- `getCurrentTime` (page.tsx lines 702-715). -/
def getCurrentTime (s : Session) (now : ℚ) : String :=
  if s.state = .working then
    let currentElapsed := now - s.startTime
    let te := s.workElapsed + currentElapsed
    let remaining := max (WORK_DURATION - te) 0
    formatTime remaining
  else if s.state = .breakState then
    let te := s.workElapsed
    let remaining := max (WORK_DURATION - te) 0
    formatTime remaining
  else
    "25:00"

/-! ## Themes (page.tsx lines 31-62, 635-640, 180) -/

structure Theme where
  name : String
  background : String
  stars : String
  starsSecondary : String
deriving DecidableEq, Repr

def coreTheme : Theme :=
  { name := "CORE", background := "#000000", stars := "#f5f5f5", starsSecondary := "#e0e0e0" }

/-- The fixed `THEMES` record, as a lookup from a runtime string key (a
key stored in localStorage may be any string): `THEMES[key]` is `none`
exactly when the key is not one of the five declared themes. -/
def THEMES (key : String) : Option Theme :=
  if key = "CORE" then some coreTheme
  else if key = "SOFTLINE" then
    some { name := "SOFTLINE", background := "#2d2d2d", stars := "#87ceeb", starsSecondary := "#b0e0e6" }
  else if key = "GLINT" then
    some { name := "GLINT", background := "#2e2e2e", stars := "#d0d0d0", starsSecondary := "#ff69b4" }
  else if key = "STATIC" then
    some { name := "STATIC", background := "#2e2e2e", stars := "#99ff99", starsSecondary := "#66ff66" }
  else if key = "FOG" then
    some { name := "FOG", background := "#2e2e2e", stars := "#d0d0d0", starsSecondary := "#999999" }
  else none

/-- `changeTheme` (page.tsx lines 635-640): the current theme key is
replaced only when `THEMES[theme]` is truthy. -/
def changeTheme (current key : String) : String :=
  if (THEMES key).isSome then key else current

/-- The renderer's theme lookup `THEMES[currentTheme] || THEMES.CORE`
(page.tsx line 180, again line 803). -/
def resolveTheme (key : String) : Theme :=
  (THEMES key).getD coreTheme

/-! ## Particles (page.tsx lines 64-74, 263-376)

The `Star` interface. Optional TypeScript fields become `Option`.
Randomness is made explicit: the respawn step takes the four
`Math.random()` draws it consumes as arguments `r1 r2 r3 r4`, each
in `[0, 1)`. -/

inductive ColorType where
  | primary
  | secondary
deriving DecidableEq, Repr

structure Star where
  x : ℚ
  y : ℚ
  z : ℚ
  prevX : Option ℚ
  prevY : Option ℚ
  hasValidPrev : Bool
  twinkle : Option ℚ
  twinkleSpeed : Option ℚ
  colorType : Option ColorType
deriving DecidableEq, Repr

/-- Twinkle update (page.tsx lines 265-267): advance the phase by the
speed whenever both are defined, in every state, every frame. -/
def twinkleStep (s : Star) : Star :=
  match s.twinkle, s.twinkleSpeed with
  | some w, some v => { s with twinkle := some (w + v) }
  | _, _ => s

/-- Depth/position update (page.tsx lines 269-292): collapse toward the
center while exiting warp, hold still during the rest of a break, and
otherwise move the star toward the viewer by `speed`. -/
def moveStep (st : TimerState) (isExitingWarp : Bool) (speed elapsed centerX centerY : ℚ)
    (s : Star) : Star :=
  if st = .breakState ∨ st = .breakComplete then
    if isExitingWarp then
      let currentX := (s.x / s.z) * 120 + centerX
      let currentY := (s.y / s.z) * 120 + centerY
      let exitProgress := min (elapsed / EXIT_ANIMATION_TIME) 1
      let collapseForce := exitProgress * 0.3
      let deltaX := centerX - currentX
      let deltaY := centerY - currentY
      { s with x := s.x + deltaX * collapseForce * 0.01,
               y := s.y + deltaY * collapseForce * 0.01,
               z := s.z - speed }
    else
      s
  else
    { s with z := s.z - speed }

/-- Respawn check (page.tsx lines 294-302): a star whose depth has
dropped to 1 or below is recycled at a fresh random position and depth,
its previous-position flag cleared and its color class re-rolled. -/
def respawnStep (r1 r2 r3 r4 : ℚ) (s : Star) : Star :=
  if s.z ≤ 1 then
    { s with x := (r1 - 0.5) * 2000,
             y := (r2 - 0.5) * 2000,
             z := r3 * 800 + STAR_RESPAWN_DISTANCE,
             hasValidPrev := false,
             colorType := some (if r4 > 0.7 then .secondary else .primary) }
  else s

/-- Perspective projection to the screen x coordinate
(page.tsx lines 270, 305): `(x / z) * 120 + centerX`. -/
def screenX (centerX : ℚ) (s : Star) : ℚ := (s.x / s.z) * 120 + centerX

/-- Perspective projection to the screen y coordinate
(page.tsx lines 271, 306). -/
def screenY (centerY : ℚ) (s : Star) : ℚ := (s.y / s.z) * 120 + centerY

/-- End-of-frame bookkeeping (page.tsx lines 304-306 and 372-375):
project the new 3D position and store it as the previous screen
position for the next frame, marking it valid. -/
def commitStep (centerX centerY : ℚ) (s : Star) : Star :=
  { s with prevX := some (screenX centerX s),
           prevY := some (screenY centerY s),
           hasValidPrev := true }

/-- One full per-star frame update, the composition of the four stages
in source order (the drawing between projection and the final prev
update reads the star but does not mutate it). -/
def frameStar (st : TimerState) (isExitingWarp : Bool)
    (speed elapsed centerX centerY r1 r2 r3 r4 : ℚ) (s : Star) : Star :=
  commitStep centerX centerY
    (respawnStep r1 r2 r3 r4
      (moveStep st isExitingWarp speed elapsed centerX centerY
        (twinkleStep s)))

/-! ## Helper lemmas about the per-star frame stages -/

theorem twinkleStep_x (s : Star) : (twinkleStep s).x = s.x := by
  obtain ⟨x, y, z, px, py, hv, tw, tws, ct⟩ := s
  cases tw <;> cases tws <;> rfl

theorem twinkleStep_y (s : Star) : (twinkleStep s).y = s.y := by
  obtain ⟨x, y, z, px, py, hv, tw, tws, ct⟩ := s
  cases tw <;> cases tws <;> rfl

theorem twinkleStep_z (s : Star) : (twinkleStep s).z = s.z := by
  obtain ⟨x, y, z, px, py, hv, tw, tws, ct⟩ := s
  cases tw <;> cases tws <;> rfl

theorem moveStep_hold (st : TimerState) (speed elapsed centerX centerY : ℚ) (s : Star)
    (hst : st = .breakState ∨ st = .breakComplete) :
    moveStep st false speed elapsed centerX centerY s = s := by
  rcases hst with h | h <;> subst h <;> simp [moveStep]

theorem moveStep_twinkle (st : TimerState) (ex : Bool) (speed elapsed centerX centerY : ℚ)
    (s : Star) :
    (moveStep st ex speed elapsed centerX centerY s).twinkle = s.twinkle := by
  unfold moveStep
  split
  · split <;> rfl
  · rfl

theorem respawnStep_twinkle (r1 r2 r3 r4 : ℚ) (s : Star) :
    (respawnStep r1 r2 r3 r4 s).twinkle = s.twinkle := by
  unfold respawnStep
  split <;> rfl

theorem commitStep_fields (centerX centerY : ℚ) (s : Star) :
    (commitStep centerX centerY s).x = s.x ∧ (commitStep centerX centerY s).y = s.y ∧
    (commitStep centerX centerY s).z = s.z ∧
    (commitStep centerX centerY s).twinkle = s.twinkle := by
  simp [commitStep]

/-! ## Claim theorems -/

/-- Claim C3: every user action invoked from a state that does not define
the corresponding transition is a no-op: the handler returns without
touching the session, so the state, the phase-start timestamp and the
accumulated work-elapsed time are all unchanged (and, being a total
function, it never raises). -/
theorem C3_undefined_action_noop (a : Action) (s : Session) (now : ℚ)
    (h : definesAction s.state a = false) :
    applyAction a s now = s := by
  cases a <;>
    simp only [definesAction, decide_eq_false_iff_not] at h <;>
    simp [applyAction, h]

/-- Witness for C3: `takeBreak` fired in the idle state leaves the
session exactly as it was. -/
theorem C3_undefined_action_noop_witness :
    definesAction TimerState.idle Action.takeBreak = false ∧
    applyAction Action.takeBreak ⟨TimerState.idle, 5, 7, 2, 0⟩ 99 =
      ⟨TimerState.idle, 5, 7, 2, 0⟩ :=
  ⟨by decide, C3_undefined_action_noop Action.takeBreak ⟨TimerState.idle, 5, 7, 2, 0⟩ 99 (by decide)⟩

/-- Claim C9: an unknown theme key is rejected by `changeTheme` (the
current theme is unchanged) and the renderer lookup falls back to the
default CORE theme, so theme handling never fails on an unknown key. -/
theorem C9_unknown_theme_rejected (current key : String) (h : THEMES key = none) :
    changeTheme current key = current ∧ resolveTheme key = coreTheme := by
  constructor
  · simp [changeTheme, h]
  · simp [resolveTheme, h]

/-- Witness for C9: the key "NEON" is not a theme; selecting it keeps
the current theme and the renderer resolves it to CORE. -/
theorem C9_unknown_theme_rejected_witness :
    THEMES "NEON" = none ∧
    (changeTheme "GLINT" "NEON" = "GLINT" ∧ resolveTheme "NEON" = coreTheme) :=
  ⟨by decide, C9_unknown_theme_rejected "GLINT" "NEON" (by decide)⟩

/-- Claim C10: at the end of every per-star frame update — including a
frame in which the star respawned — `hasValidPrev` is true and
`prevX`/`prevY` hold exactly the screen projection of the position the
frame ended with; the cleared flag from a respawn is therefore never
observable across frames. -/
theorem C10_prev_position_committed (st : TimerState) (ex : Bool)
    (speed elapsed centerX centerY r1 r2 r3 r4 : ℚ) (s : Star) :
    (frameStar st ex speed elapsed centerX centerY r1 r2 r3 r4 s).hasValidPrev = true ∧
    (frameStar st ex speed elapsed centerX centerY r1 r2 r3 r4 s).prevX =
      some (screenX centerX (frameStar st ex speed elapsed centerX centerY r1 r2 r3 r4 s)) ∧
    (frameStar st ex speed elapsed centerX centerY r1 r2 r3 r4 s).prevY =
      some (screenY centerY (frameStar st ex speed elapsed centerX centerY r1 r2 r3 r4 s)) := by
  refine ⟨by simp [frameStar, commitStep], ?_, ?_⟩ <;>
    simp [frameStar, commitStep, screenX, screenY]

/-- Claim C7: a star whose depth is at or below 1 at the respawn check
is repositioned: fresh planar coordinates inside the fixed square
`[-1000, 1000) × [-1000, 1000)`, a fresh depth equal to the respawn
distance plus a random extra in `[0, 800)` (hence at least
`STAR_RESPAWN_DISTANCE`), and `hasValidPrev` false immediately after
the respawn step. -/
theorem C7_respawn_repositions (s : Star) (r1 r2 r3 r4 : ℚ)
    (hz : s.z ≤ 1) (h1l : 0 ≤ r1) (h1u : r1 < 1) (h2l : 0 ≤ r2) (h2u : r2 < 1)
    (h3l : 0 ≤ r3) (h3u : r3 < 1) :
    (respawnStep r1 r2 r3 r4 s).x = (r1 - 0.5) * 2000 ∧
    -1000 ≤ (respawnStep r1 r2 r3 r4 s).x ∧ (respawnStep r1 r2 r3 r4 s).x < 1000 ∧
    (respawnStep r1 r2 r3 r4 s).y = (r2 - 0.5) * 2000 ∧
    -1000 ≤ (respawnStep r1 r2 r3 r4 s).y ∧ (respawnStep r1 r2 r3 r4 s).y < 1000 ∧
    (respawnStep r1 r2 r3 r4 s).z = r3 * 800 + STAR_RESPAWN_DISTANCE ∧
    STAR_RESPAWN_DISTANCE ≤ (respawnStep r1 r2 r3 r4 s).z ∧
    (respawnStep r1 r2 r3 r4 s).z < STAR_RESPAWN_DISTANCE + 800 ∧
    (respawnStep r1 r2 r3 r4 s).hasValidPrev = false := by
  have hx : (respawnStep r1 r2 r3 r4 s).x = (r1 - 0.5) * 2000 := by
    simp [respawnStep, if_pos hz]
  have hy : (respawnStep r1 r2 r3 r4 s).y = (r2 - 0.5) * 2000 := by
    simp [respawnStep, if_pos hz]
  have hzz : (respawnStep r1 r2 r3 r4 s).z = r3 * 800 + STAR_RESPAWN_DISTANCE := by
    simp [respawnStep, if_pos hz]
  have hv : (respawnStep r1 r2 r3 r4 s).hasValidPrev = false := by
    simp [respawnStep, if_pos hz]
  refine ⟨hx, ?_, ?_, hy, ?_, ?_, hzz, ?_, ?_, hv⟩
  · rw [hx]; nlinarith
  · rw [hx]; nlinarith
  · rw [hy]; nlinarith
  · rw [hy]; nlinarith
  · rw [hzz]; unfold STAR_RESPAWN_DISTANCE; nlinarith
  · rw [hzz]; unfold STAR_RESPAWN_DISTANCE; nlinarith

/-- Witness for C7: a star at depth 1 respawns at depth 650 + 800/3 with
its previous-position flag cleared. -/
theorem C7_respawn_repositions_witness :
    ((1 : ℚ) ≤ 1 ∧ (0 : ℚ) ≤ (1 : ℚ) / 3) ∧
    ((respawnStep (1/2) (1/4) (1/3) (9/10) ⟨0, 0, 1, none, none, true, none, none, none⟩).z =
        (1/3) * 800 + STAR_RESPAWN_DISTANCE ∧
      (respawnStep (1/2) (1/4) (1/3) (9/10)
          ⟨0, 0, 1, none, none, true, none, none, none⟩).hasValidPrev = false) := by
  have h := C7_respawn_repositions ⟨0, 0, 1, none, none, true, none, none, none⟩
    (1/2) (1/4) (1/3) (9/10) (by norm_num) (by norm_num) (by norm_num)
    (by norm_num) (by norm_num) (by norm_num) (by norm_num)
  exact ⟨⟨le_refl 1, by norm_num⟩, h.2.2.2.2.2.2.1, h.2.2.2.2.2.2.2.2.2⟩

/-- Claim C8: during a break's post-exit hold phase (state break or
break-complete with `isExitingWarp` false) the frame update leaves every
star's planar position and depth unchanged (given the cross-frame
invariant that depth exceeds 1), while the twinkle phase advances by the
star's own twinkle speed on every frame in every state. -/
theorem C8_hold_phase_and_twinkle :
    (∀ (st : TimerState) (speed elapsed centerX centerY r1 r2 r3 r4 : ℚ) (s : Star),
      (st = .breakState ∨ st = .breakComplete) → 1 < s.z →
        (frameStar st false speed elapsed centerX centerY r1 r2 r3 r4 s).x = s.x ∧
        (frameStar st false speed elapsed centerX centerY r1 r2 r3 r4 s).y = s.y ∧
        (frameStar st false speed elapsed centerX centerY r1 r2 r3 r4 s).z = s.z) ∧
    (∀ (st : TimerState) (ex : Bool) (speed elapsed centerX centerY r1 r2 r3 r4 w v : ℚ)
        (s : Star), s.twinkle = some w → s.twinkleSpeed = some v →
        (frameStar st ex speed elapsed centerX centerY r1 r2 r3 r4 s).twinkle = some (w + v)) := by
  constructor
  · intro st speed elapsed centerX centerY r1 r2 r3 r4 s hst hz
    have hmv : moveStep st false speed elapsed centerX centerY (twinkleStep s) = twinkleStep s :=
      moveStep_hold st speed elapsed centerX centerY (twinkleStep s) hst
    have hz' : ¬s.z ≤ 1 := not_le.mpr hz
    simp [frameStar, hmv, respawnStep, hz', commitStep, twinkleStep_x, twinkleStep_y,
      twinkleStep_z]
  · intro st ex speed elapsed centerX centerY r1 r2 r3 r4 w v s htw hts
    have h1 : (twinkleStep s).twinkle = some (w + v) := by
      unfold twinkleStep
      rw [htw, hts]
    rw [frameStar, (commitStep_fields centerX centerY _).2.2.2, respawnStep_twinkle,
      moveStep_twinkle, h1]

/-- Witness for C8: a held star at depth 5 in the break state keeps its
position while its twinkle phase moves from 1 to 1 + 1/10. -/
theorem C8_hold_phase_and_twinkle_witness :
    ((TimerState.breakState = TimerState.breakState ∨
        TimerState.breakState = TimerState.breakComplete) ∧
      (1 : ℚ) < 5 ∧
      (frameStar .breakState false 3 100 400 300 0 0 0 0
          ⟨2, 4, 5, none, none, true, some 1, some (1/10), none⟩).z = 5) ∧
    (frameStar .idle true 3 100 400 300 0 0 0 0
        ⟨2, 4, 5, none, none, true, some 1, some (1/10), none⟩).twinkle = some (1 + 1/10) := by
  refine ⟨⟨Or.inl rfl, by norm_num, ?_⟩, ?_⟩
  · exact ((C8_hold_phase_and_twinkle.1 .breakState 3 100 400 300 0 0 0 0
      ⟨2, 4, 5, none, none, true, some 1, some (1/10), none⟩ (Or.inl rfl) (by norm_num))).2.2
  · exact C8_hold_phase_and_twinkle.2 .idle true 3 100 400 300 0 0 0 0 1 (1/10)
      ⟨2, 4, 5, none, none, true, some 1, some (1/10), none⟩ rfl rfl

/-- Claim C2: a frame increments the completed-session counter by
exactly 1 when and only when the state is working and `totalElapsed`
has reached `WORK_DURATION`, in which case the accumulated work time is
reset to zero and the state becomes work-complete; `endSession`
(working to idle) zeroes the accumulated work time and never increments
the counter, and no user action increments it. -/
theorem C2_counter_increment_iff (s : Session) (now t : ℚ) :
    (tick s now).completedSessions =
      (if s.state = .working ∧ WORK_DURATION ≤ totalElapsed s now
        then s.completedSessions + 1 else s.completedSessions) ∧
    (s.state = .working → WORK_DURATION ≤ totalElapsed s now →
      (tick s now).state = .workComplete ∧ (tick s now).workElapsed = 0) ∧
    (∀ a : Action, (applyAction a s t).completedSessions = s.completedSessions) ∧
    (s.state = .working →
      (applyAction .endSession s t).state = .idle ∧
      (applyAction .endSession s t).workElapsed = 0) := by
  refine ⟨?_, ?_, ?_, ?_⟩
  · unfold tick
    split
    · rename_i hw
      split
      · rename_i hge
        simp [hw, ge_iff_le.mp hge]
      · rename_i hlt
        have : ¬(s.state = .working ∧ WORK_DURATION ≤ totalElapsed s now) := by
          rintro ⟨-, hle⟩; exact hlt hle
        simp [this]
    · rename_i hnw
      have : ¬(s.state = .working ∧ WORK_DURATION ≤ totalElapsed s now) := by
        rintro ⟨hw, -⟩; exact hnw hw
      split <;> [skip; skip] <;> first
        | (split <;> simp [this])
        | simp [this]
  · intro hw hge
    simp [tick, hw, ge_iff_le, hge]
  · intro a
    cases a <;> (simp only [applyAction]; split <;> rfl)
  · intro hw
    simp [applyAction, hw]

/-- Witness for C2: a session that started working at time 0 with no
banked time completes at 1500000 ms; the counter goes from 0 to 1, the
state to work-complete, the bank to zero; `endSession` from working
yields idle with a zero bank and an unchanged counter. -/
theorem C2_counter_increment_iff_witness :
    ((⟨.working, 0, 0, 0, 0⟩ : Session).state = .working ∧
      WORK_DURATION ≤ totalElapsed ⟨.working, 0, 0, 0, 0⟩ 1500000) ∧
    (tick ⟨.working, 0, 0, 0, 0⟩ 1500000).completedSessions = 1 ∧
    (tick ⟨.working, 0, 0, 0, 0⟩ 1500000).state = .workComplete ∧
    (tick ⟨.working, 0, 0, 0, 0⟩ 1500000).workElapsed = 0 ∧
    (applyAction .endSession ⟨.working, 0, 0, 0, 0⟩ 7).completedSessions = 0 ∧
    (applyAction .endSession ⟨.working, 0, 0, 0, 0⟩ 7).state = .idle := by
  have hle : WORK_DURATION ≤ totalElapsed ⟨.working, 0, 0, 0, 0⟩ 1500000 := by
    unfold WORK_DURATION totalElapsed; norm_num
  have h := C2_counter_increment_iff ⟨.working, 0, 0, 0, 0⟩ 1500000 7
  refine ⟨⟨rfl, hle⟩, ?_, (h.2.1 rfl hle).1, (h.2.1 rfl hle).2,
    h.2.2.1 .endSession, (h.2.2.2 rfl).1⟩
  rw [h.1, if_pos ⟨rfl, hle⟩]

/-- Claim C6: during a break, `getCurrentTime` returns the frozen
work-remaining time: it does not depend on the current instant, it
equals the formatted clamped remaining time computed from the banked
work time at break entry, and it is unchanged by frames that keep the
session in the break state. -/
theorem C6_break_time_frozen (s : Session) (now1 now2 : ℚ) (h : s.state = .breakState) :
    getCurrentTime s now1 = getCurrentTime s now2 ∧
    getCurrentTime s now1 = formatTime (max (WORK_DURATION - s.workElapsed) 0) ∧
    (∀ t now3, t - s.startTime < BREAK_DURATION →
      getCurrentTime (tick s t) now3 = getCurrentTime s now1) := by
  have hb : ∀ now : ℚ, getCurrentTime s now = formatTime (max (WORK_DURATION - s.workElapsed) 0) := by
    intro now
    simp [getCurrentTime, h]
  refine ⟨by rw [hb, hb], hb now1, ?_⟩
  intro t now3 hlt
  have htick : tick s t = s := by
    simp [tick, h, not_le.mpr hlt]
  rw [htick, hb, hb]

/-- Witness for C6: a break entered with 10 minutes banked shows 15:00
at two different instants, matching the frozen formula, including after
a frame 1 second into the break. -/
theorem C6_break_time_frozen_witness :
    (⟨.breakState, 600000, 600000, 0, 0⟩ : Session).state = .breakState ∧
    ((1000 : ℚ) + 600000 - 600000 < BREAK_DURATION) ∧
    (getCurrentTime ⟨.breakState, 600000, 600000, 0, 0⟩ 601000 =
        getCurrentTime ⟨.breakState, 600000, 600000, 0, 0⟩ 777777 ∧
      getCurrentTime ⟨.breakState, 600000, 600000, 0, 0⟩ 601000 =
        formatTime (max (WORK_DURATION - 600000) 0) ∧
      getCurrentTime (tick ⟨.breakState, 600000, 600000, 0, 0⟩ (1000 + 600000)) 602000 =
        getCurrentTime ⟨.breakState, 600000, 600000, 0, 0⟩ 601000) := by
  have h := C6_break_time_frozen ⟨.breakState, 600000, 600000, 0, 0⟩ 601000 777777 rfl
  have hlt : (1000 : ℚ) + 600000 - 600000 < BREAK_DURATION := by
    unfold BREAK_DURATION; norm_num
  exact ⟨rfl, hlt, h.1, h.2.1, h.2.2 (1000 + 600000) 602000 hlt⟩

/-! ## Helper lemmas about the speed curves -/

theorem smoothstep_nonneg {t : ℚ} (_h0 : 0 ≤ t) (h1 : t ≤ 1) : 0 ≤ smoothstep t := by
  unfold smoothstep; nlinarith [h1]

theorem smoothstep_mono {x y : ℚ} (hx : 0 ≤ x) (hxy : x ≤ y) (hy : y ≤ 1) :
    smoothstep x ≤ smoothstep y := by
  have hy0 : 0 ≤ y := hx.trans hxy
  have hx1 : x ≤ 1 := hxy.trans hy
  have hd : 0 ≤ y - x := sub_nonneg.2 hxy
  unfold smoothstep
  nlinarith [mul_nonneg hd (mul_nonneg hx (sub_nonneg.2 hy)),
    mul_nonneg hd (mul_nonneg hy0 (sub_nonneg.2 hx1)),
    mul_nonneg hd (mul_nonneg hx (sub_nonneg.2 hx1)),
    mul_nonneg hd (mul_nonneg hy0 (sub_nonneg.2 hy))]

theorem workingSpeed_eq_smoothstep (te : ℚ) :
    workingSpeed te = IDLE_SPEED + (STAR_SPEED_MAX - IDLE_SPEED) *
      (smoothstep (min (te / ACCELERATION_TIME) 1)) ^ 2 := by
  simp only [workingSpeed, smoothstep]
  ring

theorem workingSpeed_mono {a b : ℚ} (ha : 0 ≤ a) (hab : a ≤ b) :
    workingSpeed a ≤ workingSpeed b := by
  have hACC : (0 : ℚ) < ACCELERATION_TIME := by unfold ACCELERATION_TIME; norm_num
  have h0a : 0 ≤ min (a / ACCELERATION_TIME) 1 := le_min (div_nonneg ha hACC.le) zero_le_one
  have hab' : min (a / ACCELERATION_TIME) 1 ≤ min (b / ACCELERATION_TIME) 1 :=
    min_le_min ((div_le_div_iff_of_pos_right hACC).2 hab) le_rfl
  have hb1 : min (b / ACCELERATION_TIME) 1 ≤ 1 := min_le_right _ _
  have hss := smoothstep_mono h0a hab' hb1
  have hs0 : 0 ≤ smoothstep (min (a / ACCELERATION_TIME) 1) :=
    smoothstep_nonneg h0a (hab'.trans hb1)
  have hM : (0 : ℚ) ≤ STAR_SPEED_MAX - IDLE_SPEED := by
    unfold STAR_SPEED_MAX IDLE_SPEED; norm_num
  rw [workingSpeed_eq_smoothstep, workingSpeed_eq_smoothstep]
  have hsq := pow_le_pow_left₀ hs0 hss 2
  nlinarith [mul_le_mul_of_nonneg_left hsq hM]

theorem workingSpeed_saturates {t : ℚ} (h : ACCELERATION_TIME ≤ t) :
    workingSpeed t = STAR_SPEED_MAX := by
  have hACC : (0 : ℚ) < ACCELERATION_TIME := by unfold ACCELERATION_TIME; norm_num
  have h1 : (1 : ℚ) ≤ t / ACCELERATION_TIME := (one_le_div hACC).2 h
  have hmin : min (t / ACCELERATION_TIME) 1 = 1 := min_eq_right h1
  simp only [workingSpeed, hmin]
  unfold IDLE_SPEED STAR_SPEED_MAX
  norm_num

theorem IDLE_le_workingSpeed (w : ℚ) : IDLE_SPEED ≤ workingSpeed w := by
  have hM : (0 : ℚ) ≤ STAR_SPEED_MAX - IDLE_SPEED := by
    unfold STAR_SPEED_MAX IDLE_SPEED; norm_num
  simp only [workingSpeed]
  nlinarith [mul_nonneg hM (mul_self_nonneg
    (min (w / ACCELERATION_TIME) 1 * min (w / ACCELERATION_TIME) 1 *
      (3 - 2 * min (w / ACCELERATION_TIME) 1)))]

theorem speedAndExit_working (e w : ℚ) :
    (speedAndExit .working e w).1 = workingSpeed (w + e) := by
  simp [speedAndExit, workingSpeed]

theorem speedAndExit_break (elapsed w : ℚ) :
    speedAndExit .breakState elapsed w =
      if min (elapsed / EXIT_ANIMATION_TIME) 1 < 1 then
        (workingSpeed w * (1 - cubicEaseOut (min (elapsed / EXIT_ANIMATION_TIME) 1) * 0.98), true)
      else (0.05, false) := by
  simp only [speedAndExit]
  split
  · simp only [Prod.mk.injEq, and_true]
    unfold workingSpeed cubicEaseOut
    ring
  · rfl

/-- Claim C4: in the working state the speed equals
`IDLE_SPEED + (STAR_SPEED_MAX - IDLE_SPEED) * smoothstep(min(totalElapsed/ACCELERATION_TIME, 1))^2`,
this curve is monotonically non-decreasing for `totalElapsed ≥ 0`, and it
equals exactly `STAR_SPEED_MAX` once `totalElapsed ≥ ACCELERATION_TIME`. -/
theorem C4_working_speed_curve (e w a b t : ℚ) :
    (speedAndExit .working e w).1 =
      IDLE_SPEED + (STAR_SPEED_MAX - IDLE_SPEED) *
        (smoothstep (min ((w + e) / ACCELERATION_TIME) 1)) ^ 2 ∧
    (speedAndExit .working e w).1 = workingSpeed (w + e) ∧
    (0 ≤ a → a ≤ b → workingSpeed a ≤ workingSpeed b) ∧
    (ACCELERATION_TIME ≤ t → workingSpeed t = STAR_SPEED_MAX) := by
  refine ⟨?_, speedAndExit_working e w, fun ha hab => workingSpeed_mono ha hab,
    fun h => workingSpeed_saturates h⟩
  rw [speedAndExit_working, workingSpeed_eq_smoothstep]

/-- Witness for C4: concrete instances of the formula, the monotonicity
between 100 ms and 200 ms, and the saturation at 300000 ms. -/
theorem C4_working_speed_curve_witness :
    ((0 : ℚ) ≤ 100 ∧ (100 : ℚ) ≤ 200 ∧ ACCELERATION_TIME ≤ (300000 : ℚ)) ∧
    (speedAndExit .working 100 0).1 = workingSpeed (0 + 100) ∧
    workingSpeed 100 ≤ workingSpeed 200 ∧
    workingSpeed 300000 = STAR_SPEED_MAX := by
  have h := C4_working_speed_curve 100 0 100 200 300000
  exact ⟨⟨by norm_num, by norm_num, by unfold ACCELERATION_TIME; norm_num⟩,
    h.2.1, h.2.2.1 (by norm_num) (by norm_num),
    h.2.2.2 (by unfold ACCELERATION_TIME; norm_num)⟩

/-- Claim C5: in the break state before `EXIT_ANIMATION_TIME` has
elapsed, `isExitingWarp` is true and the speed is the working-state
formula at the frozen banked work time, scaled by
`1 - cubicEaseOut(exitProgress) * 0.98`, and it stays strictly positive;
from `EXIT_ANIMATION_TIME` on, `isExitingWarp` is false and the speed is
the constant 0.05. The banked work time itself is not changed by frames
during a break. -/
theorem C5_break_exit_speed (elapsed w : ℚ) :
    (elapsed < EXIT_ANIMATION_TIME →
      (speedAndExit .breakState elapsed w).2 = true ∧
      (speedAndExit .breakState elapsed w).1 =
        workingSpeed w * (1 - cubicEaseOut (min (elapsed / EXIT_ANIMATION_TIME) 1) * 0.98) ∧
      0 < (speedAndExit .breakState elapsed w).1) ∧
    (EXIT_ANIMATION_TIME ≤ elapsed →
      (speedAndExit .breakState elapsed w).2 = false ∧
      (speedAndExit .breakState elapsed w).1 = 0.05) ∧
    (∀ (s : Session) (t : ℚ), s.state = .breakState → (tick s t).workElapsed = s.workElapsed) := by
  have hE : (0 : ℚ) < EXIT_ANIMATION_TIME := by unfold EXIT_ANIMATION_TIME; norm_num
  refine ⟨?_, ?_, ?_⟩
  · intro hlt
    have hp : min (elapsed / EXIT_ANIMATION_TIME) 1 < 1 :=
      lt_of_le_of_lt (min_le_left _ _) ((div_lt_one hE).2 hlt)
    rw [speedAndExit_break, if_pos hp]
    refine ⟨rfl, rfl, ?_⟩
    have hws : IDLE_SPEED ≤ workingSpeed w := IDLE_le_workingSpeed w
    have hI : (0 : ℚ) < IDLE_SPEED := by unfold IDLE_SPEED; norm_num
    have hp1 : min (elapsed / EXIT_ANIMATION_TIME) 1 ≤ 1 := min_le_right _ _
    have hcube : 0 ≤ (1 - min (elapsed / EXIT_ANIMATION_TIME) 1) ^ 3 :=
      pow_nonneg (by linarith) 3
    have hfac : 0 < 1 - cubicEaseOut (min (elapsed / EXIT_ANIMATION_TIME) 1) * 0.98 := by
      unfold cubicEaseOut
      nlinarith [hcube]
    exact mul_pos (lt_of_lt_of_le hI hws) hfac
  · intro hge
    have h1 : (1 : ℚ) ≤ elapsed / EXIT_ANIMATION_TIME := (one_le_div hE).2 hge
    have hp : ¬min (elapsed / EXIT_ANIMATION_TIME) 1 < 1 := by
      rw [min_eq_right h1]
      exact lt_irrefl 1
    rw [speedAndExit_break, if_neg hp]
    exact ⟨rfl, rfl⟩
  · intro s t hs
    simp [tick, hs]
    split <;> rfl

/-- Witness for C5: 600 ms into a break taken with 10 banked minutes the
code is still exiting warp with positive speed; at 1200 ms it settles to
the constant 0.05. -/
theorem C5_break_exit_speed_witness :
    ((600 : ℚ) < EXIT_ANIMATION_TIME ∧ EXIT_ANIMATION_TIME ≤ (1200 : ℚ)) ∧
    ((speedAndExit .breakState 600 600000).2 = true ∧
      0 < (speedAndExit .breakState 600 600000).1) ∧
    ((speedAndExit .breakState 1200 600000).2 = false ∧
      (speedAndExit .breakState 1200 600000).1 = 0.05) := by
  have h1 := (C5_break_exit_speed 600 600000).1 (by unfold EXIT_ANIMATION_TIME; norm_num)
  have h2 := (C5_break_exit_speed 1200 600000).2.1 (by unfold EXIT_ANIMATION_TIME; norm_num)
  exact ⟨⟨by unfold EXIT_ANIMATION_TIME; norm_num, by unfold EXIT_ANIMATION_TIME; norm_num⟩,
    ⟨h1.1, h1.2.2⟩, h2⟩

/-- Claim C1 fails on the code at the second break of one session
attempt: `takeBreak` executes
`workElapsedRef.current = Date.now() - startTimeRef.current`
(page.tsx line 646), overwriting — not accumulating — the banked work
time, so every break after the first discards all previously banked
work. In the trace below the user works 10 min, breaks, resumes, works
10 more min, breaks again (the bank now reads 10 min instead of the
20 min the invariant requires), resumes, and works 5 more min: at
t = 1620000 ms the real accumulated work is exactly 25 min, yet the
frame does not increment the counter and the session is still working
with only 15 min on its clock. -/
theorem C1_two_break_counterexample :
    (applyAction .takeBreak
      (tick (applyAction .resumeWork
        (applyAction .takeBreak
          (tick (applyAction .startWork ⟨.idle, 0, 0, 0, 0⟩ 0) 600000)
          600000)
        660000) 1260000)
      1260000).workElapsed = 600000 ∧
    totalElapsed
      (applyAction .resumeWork
        (applyAction .takeBreak
          (tick (applyAction .resumeWork
            (applyAction .takeBreak
              (tick (applyAction .startWork ⟨.idle, 0, 0, 0, 0⟩ 0) 600000)
              600000)
            660000) 1260000)
          1260000)
        1320000) 1620000 = 900000 ∧
    (tick
      (applyAction .resumeWork
        (applyAction .takeBreak
          (tick (applyAction .resumeWork
            (applyAction .takeBreak
              (tick (applyAction .startWork ⟨.idle, 0, 0, 0, 0⟩ 0) 600000)
              600000)
            660000) 1260000)
          1260000)
        1320000) 1620000).completedSessions = 0 ∧
    (tick
      (applyAction .resumeWork
        (applyAction .takeBreak
          (tick (applyAction .resumeWork
            (applyAction .takeBreak
              (tick (applyAction .startWork ⟨.idle, 0, 0, 0, 0⟩ 0) 600000)
              600000)
            660000) 1260000)
          1260000)
        1320000) 1620000).state = .working := by
  have e1 : applyAction .startWork ⟨.idle, 0, 0, 0, 0⟩ 0 =
      (⟨.working, 0, 0, 0, 0⟩ : Session) := by
    norm_num [applyAction]
  have e2 : tick (⟨.working, 0, 0, 0, 0⟩ : Session) 600000 =
      (⟨.working, 0, 0, 0, 0⟩ : Session) := by
    norm_num [tick, totalElapsed, WORK_DURATION]
  have e3 : applyAction .takeBreak (⟨.working, 0, 0, 0, 0⟩ : Session) 600000 =
      (⟨.breakState, 600000, 600000, 0, takeBreakSpeed 600000⟩ : Session) := by
    norm_num [applyAction]
  have e4 : applyAction .resumeWork
      (⟨.breakState, 600000, 600000, 0, takeBreakSpeed 600000⟩ : Session) 660000 =
      (⟨.working, 660000, 600000, 0, takeBreakSpeed 600000⟩ : Session) := by
    norm_num [applyAction]
  have e5 : tick (⟨.working, 660000, 600000, 0, takeBreakSpeed 600000⟩ : Session) 1260000 =
      (⟨.working, 660000, 600000, 0, takeBreakSpeed 600000⟩ : Session) := by
    norm_num [tick, totalElapsed, WORK_DURATION]
  have e6 : applyAction .takeBreak
      (⟨.working, 660000, 600000, 0, takeBreakSpeed 600000⟩ : Session) 1260000 =
      (⟨.breakState, 1260000, 600000, 0, takeBreakSpeed 600000⟩ : Session) := by
    norm_num [applyAction]
  have e7 : applyAction .resumeWork
      (⟨.breakState, 1260000, 600000, 0, takeBreakSpeed 600000⟩ : Session) 1320000 =
      (⟨.working, 1320000, 600000, 0, takeBreakSpeed 600000⟩ : Session) := by
    norm_num [applyAction]
  have e8 : tick (⟨.working, 1320000, 600000, 0, takeBreakSpeed 600000⟩ : Session) 1620000 =
      (⟨.working, 1320000, 600000, 0, takeBreakSpeed 600000⟩ : Session) := by
    norm_num [tick, totalElapsed, WORK_DURATION]
  rw [e1, e2, e3, e4, e5, e6, e7, e8]
  norm_num [totalElapsed]

/-- The part of claim C1 that does hold: across a single
working-to-break-to-working cycle starting from a zero bank, the banked
work-elapsed time is preserved and the counter increments exactly once
when the preserved total reaches `WORK_DURATION`. (With a non-zero bank
at `takeBreak` — any second break — the snapshot discards it, which is
the bug exhibited by the counterexample.) -/
theorem C1_single_break_cycle (s : Session) (t1 t2 t3 : ℚ)
    (hs : s.state = .working) (hzero : s.workElapsed = 0) :
    ((applyAction .resumeWork (applyAction .takeBreak s t1) t2).state = .working ∧
      totalElapsed (applyAction .resumeWork (applyAction .takeBreak s t1) t2) t2 =
        totalElapsed s t1 ∧
      (applyAction .resumeWork (applyAction .takeBreak s t1) t2).completedSessions =
        s.completedSessions) ∧
    (WORK_DURATION ≤ totalElapsed (applyAction .resumeWork (applyAction .takeBreak s t1) t2) t3 →
      (tick (applyAction .resumeWork (applyAction .takeBreak s t1) t2) t3).completedSessions =
        s.completedSessions + 1 ∧
      (tick (applyAction .resumeWork (applyAction .takeBreak s t1) t2) t3).state =
        .workComplete ∧
      (∀ t4, (tick (tick (applyAction .resumeWork (applyAction .takeBreak s t1) t2) t3) t4).completedSessions =
        s.completedSessions + 1)) := by
  have h1 : applyAction .takeBreak s t1 =
      { s with workElapsed := t1 - s.startTime,
               breakStartSpeed := takeBreakSpeed (t1 - s.startTime),
               state := .breakState, startTime := t1 } := by
    simp [applyAction, hs]
  have h2 : applyAction .resumeWork (applyAction .takeBreak s t1) t2 =
      { s with workElapsed := t1 - s.startTime,
               breakStartSpeed := takeBreakSpeed (t1 - s.startTime),
               state := .working, startTime := t2 } := by
    rw [h1]; simp [applyAction]
  refine ⟨⟨by rw [h2], ?_, by rw [h2]⟩, ?_⟩
  · rw [h2]
    unfold totalElapsed
    simp [hzero]
  · intro hge
    rw [h2] at hge ⊢
    have ht : ∀ u : Session, u.state = .working → WORK_DURATION ≤ totalElapsed u t3 →
        tick u t3 = { u with state := .workComplete,
                             completedSessions := u.completedSessions + 1,
                             workElapsed := 0 } := by
      intro u hu hge2
      simp [tick, hu, hge2]
    rw [ht _ rfl hge]
    refine ⟨rfl, rfl, ?_⟩
    intro t4
    simp [tick]

/-- Witness for `C1_single_break_cycle`: work 10 min from t = 0, break
at 600000, resume at 660000; the preserved total still reads 10 min at
the resume instant, and the frame at t = 1560000 (15 more min of work)
completes the session with exactly one increment. -/
theorem C1_single_break_cycle_witness :
    ((⟨.working, 0, 0, 0, 0⟩ : Session).state = .working ∧
      (⟨.working, 0, 0, 0, 0⟩ : Session).workElapsed = 0 ∧
      WORK_DURATION ≤ totalElapsed
        (applyAction .resumeWork (applyAction .takeBreak ⟨.working, 0, 0, 0, 0⟩ 600000) 660000)
        1560000) ∧
    totalElapsed
      (applyAction .resumeWork (applyAction .takeBreak ⟨.working, 0, 0, 0, 0⟩ 600000) 660000)
      660000 = totalElapsed ⟨.working, 0, 0, 0, 0⟩ 600000 ∧
    (tick (applyAction .resumeWork
        (applyAction .takeBreak ⟨.working, 0, 0, 0, 0⟩ 600000) 660000)
      1560000).completedSessions = 1 ∧
    (tick (applyAction .resumeWork
        (applyAction .takeBreak ⟨.working, 0, 0, 0, 0⟩ 600000) 660000)
      1560000).state = .workComplete := by
  have hge : WORK_DURATION ≤ totalElapsed
      (applyAction .resumeWork (applyAction .takeBreak ⟨.working, 0, 0, 0, 0⟩ 600000) 660000)
      1560000 := by norm_num [applyAction, totalElapsed, WORK_DURATION]
  have h := C1_single_break_cycle ⟨.working, 0, 0, 0, 0⟩ 600000 660000 1560000 rfl rfl
  exact ⟨⟨rfl, rfl, hge⟩, h.1.2.1, (h.2 hge).1, (h.2 hge).2.1⟩

end Warpomodoro
